import Mathlib

/-!
Verification of `geocode_locations_google.py`.

A shallow embedding of the core logic of `geocode_locations_google.py`
(address construction, directional-offset parsing, geodesic projection,
quality flagging, post-geocode checks, and the per-record orchestration),
together with theorems settling the specification claims.

Modelling conventions:
* CSV cells are `Option String`; a missing cell is `none` and corresponds to
  pandas `NaN` (so `str(cell)` of a missing cell is the string `"nan"`).
* `latitude`/`longitude` are `Option ℝ`: the script coerces these columns with
  `pd.to_numeric(..., errors="coerce")` before the main loop, so by the time
  `should_geocode` runs they are numeric or `NaN` (`none`); the
  `isinstance(.., str)` branch of `should_geocode` is unreachable then.
* Python float arithmetic is modelled over ℝ (exact reals); the decimal
  numerals produced by the regex parser are modelled exactly by
  `PyNum` (`mant / 10 ^ exp`), which also records whether the Python object
  is an `int` (the bearing table mixes `int` and `float` literals, and
  f-string formatting differs between the two).
* Python's `re.search` is modelled, for the concrete patterns appearing in
  the script, by explicit matchers with the same leftmost-match and
  greedy-with-backtracking semantics; `\s`, `\w`, `\d`, `.lower()` etc. are
  modelled on the ASCII range, which covers the data the script handles.
-/

/-! ## String utilities (Python `str` operations on `List Char`) -/

/-- Python `\s` / `str.split()` whitespace (ASCII model). -/
def wsChar (c : Char) : Bool := c.isWhitespace

/-- Python `str.strip()`: remove leading and trailing whitespace. -/
def pyStrip (s : String) : String :=
  String.mk (((s.data.dropWhile wsChar).reverse.dropWhile wsChar).reverse)

/-- Python `str.lower()` (ASCII model). -/
def pyLower (s : String) : String := String.mk (s.data.map Char.toLower)

/-- Python `str.upper()` (ASCII model). -/
def pyUpper (s : String) : String := String.mk (s.data.map Char.toUpper)

/-- Does `pat` occur as a contiguous substring? (Python `pat in s` on lists.) -/
def subOccurs (pat : List Char) : List Char → Bool
  | [] => pat.isEmpty
  | c :: rest => pat.isPrefixOf (c :: rest) || subOccurs pat rest

/-- Python `pat in s` for strings. -/
def subStr (pat s : String) : Bool := subOccurs pat.data s.data

/-- `a` is a prefix of `b` (used to state that reason trails are append-only). -/
def strPre (a b : String) : Bool := a.data.isPrefixOf b.data

/-- Python `"sep".join(parts)`. -/
def joinSep (sep : String) : List String → String
  | [] => ""
  | [s] => s
  | s :: rest => s ++ sep ++ joinSep sep rest

/-- Python `str.endswith` (used for the `" County"` suffix logic). -/
def pyEndsWith (s suffixStr : String) : Bool :=
  suffixStr.data.reverse.isPrefixOf s.data.reverse

/-- Python `str.isupper()`: at least one cased character and no lowercase
character (ASCII model). -/
def pyIsUpper (s : String) : Bool :=
  s.data.any (fun c => c.isUpper || c.isLower) && s.data.all (fun c => !c.isLower)

/-- Python `str.isdigit()` (ASCII model). -/
def pyIsDigit (s : String) : Bool :=
  !s.data.isEmpty && s.data.all Char.isDigit

/-- Python `len(text.split())`: number of maximal whitespace-free runs. -/
def wordCountAux (inWord : Bool) : List Char → Nat
  | [] => 0
  | c :: cs =>
    if wsChar c then wordCountAux false cs
    else (if inWord then 0 else 1) + wordCountAux true cs

/-- Number of words of a text, as Python's `len(text.split())`. -/
def wordCount (l : List Char) : Nat := wordCountAux false l

/-- `str(cell)` for an optional CSV cell: a missing cell is pandas `NaN`,
whose `str()` is `"nan"`. -/
def textOf : Option String → String
  | none => "nan"
  | some s => s

/-- Truthiness of `pd.notna(cell) and str(cell).strip()`: the cell is present
and not whitespace-only. -/
def hasVal (o : Option String) : Bool :=
  match o with
  | none => false
  | some s => !(pyStrip s = "")

/-! ## Python word-boundary regex searches (`\bword\b`)

All keyword patterns in `flag_potential_issues` have the form `\bword\b`
where `word` starts and ends with a word character (`\w`).  For such a
pattern, `re.search` succeeds iff `word` occurs at a position whose
preceding character (if any) is not a word character and whose following
character (if any) is not a word character. -/

/-- Python `\w` (ASCII model). -/
def isWordChar (c : Char) : Bool := c.isAlphanum || c = '_'

/-- The position right after a candidate match is a word boundary. -/
def afterBoundary : List Char → Bool
  | [] => true
  | c :: _ => !isWordChar c

/-- Search for `\bword\b`; `prevWord` records whether the previous character
is a word character (initially false: start of text is a boundary). -/
def containsWordAux (w : List Char) (prevWord : Bool) : List Char → Bool
  | [] => false
  | c :: cs =>
    (!prevWord && w.isPrefixOf (c :: cs) && afterBoundary ((c :: cs).drop w.length))
      || containsWordAux w (isWordChar c) cs

/-- `re.search(r"\b" + w + r"\b", text)` succeeds (for `w` starting and
ending with word characters). -/
def containsWord (w : String) (l : List Char) : Bool := containsWordAux w.data false l

/-- The tail check for `\bvic\.?\b`: after "vic", the regex first greedily
consumes an optional `.` and requires a word boundary.  If the next character
is `.`, one of the two backtracking alternatives always yields a boundary
(`.` is not a word character), so the pattern matches; otherwise it behaves
as a plain trailing `\b`. -/
def afterVic : List Char → Bool
  | '.' :: _ => true
  | l => afterBoundary l

/-- Search for `\bvic\.?\b`. -/
def containsVicAux (prevWord : Bool) : List Char → Bool
  | [] => false
  | c :: cs =>
    (!prevWord && ['v', 'i', 'c'].isPrefixOf (c :: cs)
        && afterVic ((c :: cs).drop 3))
      || containsVicAux (isWordChar c) cs

/-- `re.search(r"\bvic\.?\b", text)` succeeds. -/
def containsVic (l : List Char) : Bool := containsVicAux false l

/-! ## Exact decimals standing in for the Python floats produced by parsing

`float(match.group(1))` is applied to a decimal numeral with at most a
handful of digits; its `repr` (used by the f-string) is then the shortest
decimal round-tripping to the float, i.e. the normalized form of the
numeral itself.  We model such numbers exactly as `mant / 10 ^ exp`,
with a flag recording whether the Python object is an `int` (the
`direction_bearings` table mixes `int` and `float` literals, and Python
formats `90` as `"90"` but `90.0` as `"90.0"`). -/

structure PyNum where
  mant : Nat
  exp : Nat
  isInt : Bool
  deriving DecidableEq, Repr

/-- The real value of a parsed number. -/
noncomputable def PyNum.value (d : PyNum) : ℝ := (d.mant : ℝ) / (10 : ℝ) ^ d.exp

/-- Value of a list of decimal digits. -/
def digitsToNat (l : List Char) : Nat :=
  l.foldl (fun a c => 10 * a + (c.toNat - 48)) 0

def natDigitChar (n : Nat) : Char := Char.ofNat (48 + n)

def natDigitsAux : Nat → Nat → List Char
  | 0, _ => []
  | fuel + 1, n =>
    if n < 10 then [natDigitChar n]
    else natDigitsAux fuel (n / 10) ++ [natDigitChar (n % 10)]

/-- Decimal digits of a natural number (no leading zeros; `0 ↦ "0"`). -/
def natDigits (n : Nat) : List Char := natDigitsAux (n + 1) n

def stripTrailingZeros (l : List Char) : List Char :=
  (l.reverse.dropWhile (· = '0')).reverse

/-- `repr` of the Python float `mant / 10 ^ exp` (shortest decimal form,
always with a decimal point, as Python prints floats). -/
def pyFloatStr (d : PyNum) : String :=
  let ds0 := natDigits d.mant
  let ds := if ds0.length ≤ d.exp then
      List.replicate (d.exp + 1 - ds0.length) '0' ++ ds0
    else ds0
  let ip := ds.take (ds.length - d.exp)
  let fp := stripTrailingZeros (ds.drop (ds.length - d.exp))
  String.mk (ip ++ ('.' :: (if fp.isEmpty then ['0'] else fp)))

/-- f-string formatting of a parsed number: Python `int`s print without a
decimal point, `float`s with one. -/
def pyNumStr (d : PyNum) : String :=
  if d.isInt then String.mk (natDigits d.mant) else pyFloatStr d

/-! ## The directional-offset regular expressions

The script uses (with and without `re.IGNORECASE`, and with an optional
trailing `\s+` in `extract_base_location`) the patterns

* `(\d+\.?\d*)\s*mi[les]*\s+([NSEW]{1,3})\s+of`
* `(\d+\.?\d*)\s*mi[les]*\s+(north|south|east|west|ne|nw|se|sw)\s+of`
* `\d+\.?\d*\s*mi[les]*\s+[NSEW]{1,3}$`   (flag stage only)

All pieces up to the direction are over pairwise-disjoint character classes,
so maximal munch is exact for them; the `[NSEW]{1,3}` repetition and the
word alternation need genuine backtracking, implemented below. -/

/-- Case-insensitive match of a (lowercase) pattern character. -/
def charEqCI (ci : Bool) (p c : Char) : Bool :=
  c = p || (ci && Char.toLower c = p)

/-- Membership in the `[NSEW]` class (ci additionally admits lowercase). -/
def dirClassChar (ci : Bool) (c : Char) : Bool :=
  c = 'N' || c = 'S' || c = 'E' || c = 'W' ||
    (ci && (c = 'n' || c = 's' || c = 'e' || c = 'w'))

/-- Match `\s+of` (ci), then `\s+` as well when `trailingWs` is set
(`extract_base_location`'s variant); returns the input after the match. -/
def afterDirTail (ci trailingWs : Bool) (l : List Char) : Option (List Char) :=
  let ws := l.takeWhile wsChar
  if ws.isEmpty then none
  else
    match l.drop ws.length with
    | o :: f :: r2 =>
      if charEqCI ci 'o' o && charEqCI ci 'f' f then
        if trailingWs then
          let ws2 := r2.takeWhile wsChar
          if ws2.isEmpty then none else some (r2.drop ws2.length)
        else some r2
      else none
    | _ => none

/-- Try `[NSEW]{n}` followed by the `of` tail. -/
def tryDirLen (ci trailingWs : Bool) (l : List Char) (n : Nat) :
    Option (List Char × List Char) :=
  let dir := l.take n
  if dir.length = n && dir.all (dirClassChar ci) then
    match afterDirTail ci trailingWs (l.drop n) with
    | some r => some (dir, r)
    | none => none
  else none

/-- Greedy `[NSEW]{1,3}` with backtracking (3, then 2, then 1). -/
def tryClassDir (ci trailingWs : Bool) (l : List Char) :
    Option (List Char × List Char) :=
  match tryDirLen ci trailingWs l 3 with
  | some x => some x
  | none =>
    match tryDirLen ci trailingWs l 2 with
    | some x => some x
    | none => tryDirLen ci trailingWs l 1

/-- Python `$`: end of string, or just before a single trailing newline. -/
def endAnchorOk : List Char → Bool
  | [] => true
  | ['\n'] => true
  | _ => false

/-- Try `[NSEW]{n}$`. -/
def tryDirLenEnd (ci : Bool) (l : List Char) (n : Nat) :
    Option (List Char × List Char) :=
  let dir := l.take n
  if dir.length = n && dir.all (dirClassChar ci) && endAnchorOk (l.drop n) then
    some (dir, l.drop n)
  else none

/-- Greedy `[NSEW]{1,3}$` with backtracking. -/
def tryClassDirEnd (ci : Bool) (l : List Char) : Option (List Char × List Char) :=
  match tryDirLenEnd ci l 3 with
  | some x => some x
  | none =>
    match tryDirLenEnd ci l 2 with
    | some x => some x
    | none => tryDirLenEnd ci l 1

/-- Match a literal (lowercase) word, possibly case-insensitively;
returns the rest of the input. -/
def matchLit (ci : Bool) : List Char → List Char → Option (List Char)
  | [], l => some l
  | _ :: _, [] => none
  | p :: ps, c :: cs => if charEqCI ci p c then matchLit ci ps cs else none

/-- The ordered alternation `(north|south|east|west|ne|nw|se|sw)`. -/
def dirWords : List String := ["north", "south", "east", "west", "ne", "nw", "se", "sw"]

/-- Ordered alternation with backtracking: a later alternative is tried when
an earlier one fails, or matches but its continuation fails. -/
def tryAltDir (ci trailingWs : Bool) : List String → List Char → Option (List Char × List Char)
  | [], _ => none
  | w :: ws, l =>
    match matchLit ci w.data l with
    | some r0 =>
      (match afterDirTail ci trailingWs r0 with
       | some r => some (l.take w.data.length, r)
       | none => tryAltDir ci trailingWs ws l)
    | none => tryAltDir ci trailingWs ws l

/-- Match `(\d+\.?\d*)\s*mi[les]*\s+` at the current position; returns the
captured numeral and the rest.  All classes involved are pairwise disjoint,
so greedy matching is exact here. -/
def matchPrelude (ci : Bool) (l : List Char) : Option (List Char × List Char) :=
  let ds := l.takeWhile Char.isDigit
  if ds.isEmpty then none
  else
    let r1 := l.drop ds.length
    let dotPart : List Char := match r1 with
      | '.' :: _ => ['.']
      | _ => []
    let r2 := r1.drop dotPart.length
    let ds2 := r2.takeWhile Char.isDigit
    let r3 := r2.drop ds2.length
    let r4 := r3.dropWhile wsChar
    match r4 with
    | m :: i :: r5 =>
      if charEqCI ci 'm' m && charEqCI ci 'i' i then
        let les := r5.takeWhile
          (fun c => charEqCI ci 'l' c || charEqCI ci 'e' c || charEqCI ci 's' c)
        let r6 := r5.drop les.length
        let ws := r6.takeWhile wsChar
        if ws.isEmpty then none
        else some (ds ++ dotPart ++ ds2, r6.drop ws.length)
      else none
    | _ => none

/-- The full class pattern `(\d+\.?\d*)\s*mi[les]*\s+([NSEW]{1,3})\s+of[\s+]`
at one position: `(group1, group2, rest-after-match)`. -/
def matchClassPatAt (ci trailingWs : Bool) (l : List Char) :
    Option (List Char × List Char × List Char) :=
  match matchPrelude ci l with
  | some (g1, r) =>
    match tryClassDir ci trailingWs r with
    | some (d, rest) => some (g1, d, rest)
    | none => none
  | none => none

/-- The end-anchored class pattern `\d+\.?\d*\s*mi[les]*\s+[NSEW]{1,3}$`. -/
def matchClassEndPatAt (ci : Bool) (l : List Char) :
    Option (List Char × List Char × List Char) :=
  match matchPrelude ci l with
  | some (g1, r) =>
    match tryClassDirEnd ci r with
    | some (d, rest) => some (g1, d, rest)
    | none => none
  | none => none

/-- The alternation pattern
`(\d+\.?\d*)\s*mi[les]*\s+(north|south|east|west|ne|nw|se|sw)\s+of[\s+]`. -/
def matchAltPatAt (ci trailingWs : Bool) (l : List Char) :
    Option (List Char × List Char × List Char) :=
  match matchPrelude ci l with
  | some (g1, r) =>
    match tryAltDir ci trailingWs dirWords r with
    | some (d, rest) => some (g1, d, rest)
    | none => none
  | none => none

/-- `re.search`: try the pattern at each start position, leftmost first. -/
def searchAux {α : Type} (m : List Char → Option α) : List Char → Option α
  | [] => m []
  | c :: cs =>
    match m (c :: cs) with
    | some x => some x
    | none => searchAux m cs

/-! ## `parse_directional_offset`, `extract_base_location` -/

/-- The numeral captured by `(\d+\.?\d*)`, as the exact value of
`float(match.group(1))`. -/
def numeralToPyNum (g : List Char) : PyNum :=
  let ip := g.takeWhile Char.isDigit
  let rest := g.drop ip.length
  let fp := match rest with
    | '.' :: t => t
    | _ => []
  { mant := digitsToNat (ip ++ fp), exp := fp.length, isInt := false }

/-- The `direction_map` dict: spelled-out directions to abbreviations,
other keys unchanged (`dict.get(direction, direction)`). -/
def direction_map (d : String) : String :=
  if d = "NORTH" then "N"
  else if d = "SOUTH" then "S"
  else if d = "EAST" then "E"
  else if d = "WEST" then "W"
  else if d = "NORTHEAST" then "NE"
  else if d = "NORTHWEST" then "NW"
  else if d = "SOUTHEAST" then "SE"
  else if d = "SOUTHWEST" then "SW"
  else d

/-- The `direction_bearings` dict.  The whole-degree entries are Python
`int` literals, the half-degree ones `float` literals; `dict.get` of an
unknown key is `None`. -/
def direction_bearings (d : String) : Option PyNum :=
  if d = "N" then some { mant := 0, exp := 0, isInt := true }
  else if d = "NNE" then some { mant := 225, exp := 1, isInt := false }
  else if d = "NE" then some { mant := 45, exp := 0, isInt := true }
  else if d = "ENE" then some { mant := 675, exp := 1, isInt := false }
  else if d = "E" then some { mant := 90, exp := 0, isInt := true }
  else if d = "ESE" then some { mant := 1125, exp := 1, isInt := false }
  else if d = "SE" then some { mant := 135, exp := 0, isInt := true }
  else if d = "SSE" then some { mant := 1575, exp := 1, isInt := false }
  else if d = "S" then some { mant := 180, exp := 0, isInt := true }
  else if d = "SSW" then some { mant := 2025, exp := 1, isInt := false }
  else if d = "SW" then some { mant := 225, exp := 0, isInt := true }
  else if d = "WSW" then some { mant := 2475, exp := 1, isInt := false }
  else if d = "W" then some { mant := 270, exp := 0, isInt := true }
  else if d = "WNW" then some { mant := 2925, exp := 1, isInt := false }
  else if d = "NW" then some { mant := 315, exp := 0, isInt := true }
  else if d = "NNW" then some { mant := 3375, exp := 1, isInt := false }
  else none

/-- The shared body after a pattern match in `parse_directional_offset`:
`distance = float(group(1))`, `direction = group(2).upper()`, map
spelled-out words to abbreviations, then look up the bearing; `none` when
the direction has no known bearing (the loop then falls through to the
next pattern). -/
def bearingOfMatch (g1 g2 : List Char) : Option (PyNum × PyNum) :=
  let direction := pyUpper (String.mk g2)
  let direction := direction_map direction
  match direction_bearings direction with
  | some b => some (numeralToPyNum g1, b)
  | none => none

/-- `parse_directional_offset(text)`: pattern 1 (`[NSEW]{1,3}`), then
pattern 2 (spelled-out words); a match whose direction resolves to no
bearing falls through to the next pattern.  Returns `none` for `(None,
None)`. -/
def parse_directional_offset (text : String) : Option (PyNum × PyNum) :=
  let p2 := fun () =>
    match searchAux (matchAltPatAt true false) text.data with
    | some (g1, g2, _) => bearingOfMatch g1 g2
    | none => none
  match searchAux (matchClassPatAt true false) text.data with
  | some (g1, g2, _) =>
    match bearingOfMatch g1 g2 with
    | some db => some db
    | none => p2 ()
  | none => p2 ()

/-- `extract_base_location(address)`: strip a leading
`"<dist> mi <dir> of "` phrase (patterns with a trailing `\s+`), returning
the stripped remainder; the original address when no pattern matches or
the address is empty (falsy). -/
def extract_base_location (address : String) : String :=
  if address = "" then address
  else
    match searchAux (matchClassPatAt true true) address.data with
    | some (_, _, rest) => pyStrip (String.mk rest)
    | none =>
      match searchAux (matchAltPatAt true true) address.data with
      | some (_, _, rest) => pyStrip (String.mk rest)
      | none => address


/-! ## `flag_potential_issues` (the pre-geocode quality-flag stage)

The flag rules of `flag_potential_issues` are split into `computeFlags`
(the list of fired flag strings, in the order the source appends them) and
`determineStatus` (the severity combination at the end of the function).
The "positive indicator" checks of the source (highway references,
detailed comma-separated locations) only execute `pass` and produce no
flag, so they contribute nothing to the record and are omitted. -/

/-- `vague_refs` patterns: `\bbehind\b`, `\bat\b`, `\bvic\.?\b`, `\bnear\b`. -/
def vague_refs_hit (lt : List Char) : Bool :=
  containsWord "behind" lt || containsWord "at" lt || containsVic lt
    || containsWord "near" lt

/-- `water_features` patterns. -/
def water_features_hit (lt : List Char) : Bool :=
  containsWord "river" lt || containsWord "lake" lt || containsWord "creek" lt
    || containsWord "bay" lt || containsWord "beach" lt || containsWord "shore" lt
    || containsWord "falls" lt || containsWord "pond" lt

/-- `park_keywords` patterns. -/
def park_keywords_hit (lt : List Char) : Bool :=
  containsWord "park" lt || containsWord "forest" lt || containsWord "wilderness" lt
    || containsWord "preserve" lt || containsWord "refuge" lt
    || containsWord "national" lt || containsWord "state park" lt
    || containsWord "grove" lt || containsWord "seashore" lt
    || containsWord "monument" lt || containsWord "station" lt
    || containsWord "dunes" lt

/-- The three `directional_patterns` of the flag stage.  Unlike
`parse_directional_offset`, these searches pass no `re.IGNORECASE`, so the
`[NSEW]` class only matches uppercase letters (while `location_text` has
been lowercased). -/
def directional_flag_hit (lt : List Char) : Bool :=
  (searchAux (matchClassPatAt false false) lt).isSome
    || (searchAux (matchClassEndPatAt false) lt).isSome
    || (searchAux (matchAltPatAt false false) lt).isSome

/-- One row of the input table, with the derived columns the script adds.
Input cells are optional; derived string columns are initialized to `""`. -/
structure LocationRow where
  prec_location : Option String
  city : Option String
  county : Option String
  province_state : Option String
  country : Option String
  latitude : Option ℝ
  longitude : Option ℝ
  geocoded_address : String
  google_formatted_address : String
  location_type : String
  flag_status : String
  flag_reason : String
  latitude_shifted : Option ℝ
  longitude_shifted : Option ℝ
  offset_applied : String

/-- The list of flags fired by `flag_potential_issues`, in source order. -/
def computeFlags (r : LocationRow) : List String :=
  let has_city := hasVal r.city
  let has_prec_location := hasVal r.prec_location
  let has_county := hasVal r.county
  let has_state := hasVal r.province_state
  let prec_loc_text := pyStrip (textOf r.prec_location)
  let city_text := pyStrip (textOf r.city)
  let location_text := (pyLower (prec_loc_text ++ " " ++ city_text)).data
  (if !has_city && !has_prec_location then ["County/state only - very vague"] else [])
    ++ (if !has_state then ["Missing state - may be ambiguous"] else [])
    ++ (if has_prec_location && directional_flag_hit location_text then
          ["Directional offset - API may ignore distance/direction"] else [])
    ++ (if has_prec_location && vague_refs_hit location_text then
          ["Vague reference point (behind/at/vic/near)"] else [])
    ++ (if (has_prec_location || has_city) && water_features_hit location_text then
          ["Water feature - may use centerline/centroid"] else [])
    ++ (if park_keywords_hit location_text then
          (if wordCount location_text ≤ 3 then
            ["Park/natural area (just name - may use geometric center)"]
          else
            ["Park/natural area with detail (may still use center)"])
        else [])
    ++ (if has_county &&
          (subStr "/" (textOf r.county) || subStr " or " (pyLower (textOf r.county))) then
          ["Multiple counties listed"] else [])
    ++ (if has_prec_location then
          (if prec_loc_text.data.length ≤ 6 && prec_loc_text.data.any (· = '.') then
            ["Abbreviated location name"]
          else if prec_loc_text.data.length ≤ 4 && pyIsUpper prec_loc_text
              && !pyIsDigit prec_loc_text then
            ["Possible acronym/abbreviation"]
          else [])
        else [])
    ++ (if has_prec_location &&
          (prec_loc_text.data.any (· = '(') || prec_loc_text.data.any (· = '[')
            || prec_loc_text.data.any (· = ')') || prec_loc_text.data.any (· = ']')) then
          ["Contains parenthetical info - may confuse geocoder"] else [])

def critical_keywords : List String := ["county/state only", "missing state"]

def informational_keywords : List String := ["park", "water feature", "parenthetical"]

/-- `has_critical`: some fired flag contains a critical keyword. -/
def hasCriticalFlags (flags : List String) : Bool :=
  flags.any (fun f => critical_keywords.any (fun k => subStr k (pyLower f)))

/-- The severity combination at the end of `flag_potential_issues`. -/
def determineStatus (flags : List String) : String × String :=
  if flags.isEmpty then ("OK", "")
  else if hasCriticalFlags flags then ("WARNING", joinSep "; " flags)
  else if 2 ≤ flags.length then
    (if flags.all (fun f => informational_keywords.any (fun k => subStr k (pyLower f))) then
      ("OK", joinSep "; " flags)
    else ("REVIEW", joinSep "; " flags))
  else if flags.length = 1 then
    (let f := pyLower (flags.headD "")
     if subStr "directional offset" f || subStr "vague reference" f
         || subStr "abbreviated" f then
       ("REVIEW", joinSep "; " flags)
     else ("OK", joinSep "; " flags))
  else ("OK", joinSep "; " flags)

/-- `flag_potential_issues(row) -> (flag_status, flag_reason)`. -/
def flag_potential_issues (r : LocationRow) : String × String :=
  determineStatus (computeFlags r)

/-! ## `construct_address`, `should_geocode`, `is_too_vague` -/

/-- Suffix `" County"` unless the name already ends in `"county"`
(case-insensitive). -/
def countyFix (county : String) : String :=
  if pyEndsWith (pyLower county) "county" then county else county ++ " County"

/-- The parts list assembled by `construct_address`, in source order:
precise location, city, county (suffixed), state, then country — with the
literal `"USA"` appended when the country cell is missing or blank. -/
def addressParts (r : LocationRow) : List String :=
  (if hasVal r.prec_location then [pyStrip (textOf r.prec_location)] else [])
    ++ (if hasVal r.city then [pyStrip (textOf r.city)] else [])
    ++ (if hasVal r.county then [countyFix (pyStrip (textOf r.county))] else [])
    ++ (if hasVal r.province_state then [pyStrip (textOf r.province_state)] else [])
    ++ (if hasVal r.country then [pyStrip (textOf r.country)] else ["USA"])

/-- `construct_address(row)`: join the nonempty parts with `", "`;
`None` when no part was collected. -/
def construct_address (r : LocationRow) : Option String :=
  let parts := addressParts r
  if !parts.isEmpty then some (joinSep ", " parts) else none

/-- `should_geocode(row)`: latitude or longitude is missing.  (The columns
have been passed through `pd.to_numeric(..., errors="coerce")`, so a cell
is either a number or `NaN`; the `isinstance(_, str)` test of the source is
vacuous at this point.) -/
def should_geocode (r : LocationRow) : Bool :=
  r.latitude.isNone || r.longitude.isNone

/-- `is_too_vague(row)`: neither city nor precise location is usable. -/
def is_too_vague (r : LocationRow) : Bool :=
  !(hasVal r.city || hasVal r.prec_location)

/-! ## The post-geocode flag stage (main loop, lines 590–649) -/

/-- The `state_abbrev` table: full state names to 2-letter abbreviations. -/
def state_abbrev : List (String × String) :=
  [("alabama", "al"), ("alaska", "ak"), ("arizona", "az"), ("arkansas", "ar"),
   ("california", "ca"), ("colorado", "co"), ("connecticut", "ct"), ("delaware", "de"),
   ("florida", "fl"), ("georgia", "ga"), ("hawaii", "hi"), ("idaho", "id"),
   ("illinois", "il"), ("indiana", "in"), ("iowa", "ia"), ("kansas", "ks"),
   ("kentucky", "ky"), ("louisiana", "la"), ("maine", "me"), ("maryland", "md"),
   ("massachusetts", "ma"), ("michigan", "mi"), ("minnesota", "mn"), ("mississippi", "ms"),
   ("missouri", "mo"), ("montana", "mt"), ("nebraska", "ne"), ("nevada", "nv"),
   ("new hampshire", "nh"), ("new jersey", "nj"), ("new mexico", "nm"), ("new york", "ny"),
   ("north carolina", "nc"), ("north dakota", "nd"), ("ohio", "oh"), ("oklahoma", "ok"),
   ("oregon", "or"), ("pennsylvania", "pa"), ("rhode island", "ri"), ("south carolina", "sc"),
   ("south dakota", "sd"), ("tennessee", "tn"), ("texas", "tx"), ("utah", "ut"),
   ("vermont", "vt"), ("virginia", "va"), ("washington", "wa"), ("west virginia", "wv"),
   ("wisconsin", "wi"), ("wyoming", "wy")]

/-- `state_abbrev.get(key, '')`. -/
def abbrevLookup (s : String) : String :=
  ((state_abbrev.find? (fun p => p.1 == s)).map Prod.snd).getD ""

/-- The state-mismatch check of the post-geocode stage; `formatted_lower`
is the lowercased formatted address.  Note the lookup key is the *full*
state name: for any `province_state` that is not a key of the table (for
instance a 2-letter abbreviation), `abbrevLookup` yields `""`, and the
empty string occurs in every string, so `state_found` is true. -/
def stateMismatchFlag (province_state : Option String) (formatted_lower : String) :
    List String :=
  match province_state with
  | some ps =>
    let expected_state := pyStrip ps
    let expected_state_lower := pyLower expected_state
    let state_found := subStr expected_state_lower formatted_lower
      || subStr (abbrevLookup expected_state_lower) formatted_lower
    if !(expected_state = "") && !state_found then
      ["State mismatch (expected " ++ expected_state ++ ")"]
    else []
  | none => []

/-- The unexpected-country check of the post-geocode stage. -/
def unexpectedCountryFlag (formatted_lower : String) : List String :=
  if (subStr "india" formatted_lower || subStr "uk" formatted_lower
      || subStr "canada" formatted_lower)
      && !(subStr "usa" formatted_lower || subStr "united states" formatted_lower) then
    ["UNEXPECTED COUNTRY - verify result!"]
  else []

/-- All post-geocode flags for a successfully geocoded row: the
geometric-center note, then (only when the formatted address is nonempty)
the state-mismatch and unexpected-country checks. -/
def computePostFlags (province_state : Option String)
    (location_type formatted_address : String) : List String :=
  (if location_type = "GEOMETRIC_CENTER" then ["Geometric center of area"] else [])
    ++ (if !(formatted_address = "") then
          stateMismatchFlag province_state (pyLower formatted_address)
            ++ unexpectedCountryFlag (pyLower formatted_address)
        else [])

/-- Is a post-flag one of the serious ones that force `WARNING`? -/
def seriousPostFlag (f : String) : Bool :=
  subStr "UNEXPECTED COUNTRY" f || subStr "State mismatch" f

/-- The merge of post-geocode flags into the row's flag fields
(lines 637–649): no post flags → nothing changes; otherwise the reasons
are appended to the trail and the status is forced to `WARNING` on a
serious flag, raised from `OK` to `REVIEW` otherwise, and left alone
else. -/
def mergePostFlags (flag_status flag_reason : String) (post : List String) :
    String × String :=
  if post.isEmpty then (flag_status, flag_reason)
  else
    let reason := if !(flag_reason = "") then
        flag_reason ++ "; " ++ joinSep "; " post
      else joinSep "; " post
    let status := if post.any seriousPostFlag then "WARNING"
      else if flag_status = "OK" then "REVIEW"
      else flag_status
    (status, reason)

/-- The total order OK < REVIEW < WARNING of `flag_status` values. -/
def statusRank (s : String) : Nat :=
  if s = "WARNING" then 2 else if s = "REVIEW" then 1 else 0


/-! ## `apply_offset` (GeodesicProjector) -/

/-- `math.radians`. -/
noncomputable def radiansOf (x : ℝ) : ℝ := x * (Real.pi / 180)

/-- `math.degrees`. -/
noncomputable def degreesOf (x : ℝ) : ℝ := x * (180 / Real.pi)

/-- `math.atan2 y x` on the reals (the signed-zero distinctions of IEEE
floats collapse: `atan2 0 0 = 0`, as in Python for `+0.0`). -/
noncomputable def atan2 (y x : ℝ) : ℝ :=
  if 0 < x then Real.arctan (y / x)
  else if x < 0 then
    (if 0 ≤ y then Real.arctan (y / x) + Real.pi else Real.arctan (y / x) - Real.pi)
  else
    (if 0 < y then Real.pi / 2 else if y < 0 then -(Real.pi / 2) else 0)

/-- `apply_offset(lat, lon, distance_miles, bearing_degrees)`: spherical
forward geodesic with Earth radius 3959 miles. -/
noncomputable def apply_offset (lat lon distance_miles bearing_degrees : ℝ) : ℝ × ℝ :=
  let R : ℝ := 3959
  let lat_rad := radiansOf lat
  let lon_rad := radiansOf lon
  let bearing_rad := radiansOf bearing_degrees
  let distance_rad := distance_miles / R
  let new_lat_rad := Real.arcsin
    (Real.sin lat_rad * Real.cos distance_rad
      + Real.cos lat_rad * Real.sin distance_rad * Real.cos bearing_rad)
  let new_lon_rad := lon_rad + atan2
    (Real.sin bearing_rad * Real.sin distance_rad * Real.cos lat_rad)
    (Real.cos distance_rad - Real.sin lat_rad * Real.sin new_lat_rad)
  (degreesOf new_lat_rad, degreesOf new_lon_rad)

/-! ## `geocode_address_google` and the per-record orchestration

The provider contract (§6 of the specification): one call yields either a
success carrying coordinates, a location type and a formatted address, or
one of the failure outcomes; `geocode_address_google` maps every failure
arm to the tuple `(None, None, None, None)`. -/

inductive GeoOutcome where
  | success (lat lon : ℝ) (location_type formatted_address : String)
  | zeroResults
  | denied (message : String)
  | overLimit
  | otherStatus (code : String)
  | transportFailure
  | parseFailure

/-- The tuple returned by `geocode_address_google` for a given outcome of
the provider call. -/
def geocode_address_google :
    GeoOutcome → Option ℝ × Option ℝ × Option String × Option String
  | .success la lo ty fa => (some la, some lo, some ty, some fa)
  | _ => (none, none, none, none)

/-- What the main loop did with a row. -/
inductive StepTag where
  | alreadyDone
  | skippedVague
  | skippedNoAddress
  | geocoded
  | failed
  deriving DecidableEq, Repr

/-- The pre-processing pass: `flag_potential_issues` overwrites the
`flag_status`/`flag_reason` columns of every row, geocoded or not. -/
def preFlagged (r : LocationRow) : LocationRow :=
  { r with flag_status := (flag_potential_issues r).1,
           flag_reason := (flag_potential_issues r).2 }

/-- The directional-offset application of the success branch (lines
575–588): when the stripped `prec_location` is truthy, re-parse it; a
parsed `(distance, bearing)` pair is applied only when `distance` and
`bearing` are both truthy (`if distance and bearing:`). -/
noncomputable def offsetShift (r2 : LocationRow) (prec_location : String)
    (la lo : ℝ) : LocationRow :=
  if !(prec_location = "") then
    match parse_directional_offset prec_location with
    | some (d, b) =>
      if d.value ≠ 0 ∧ b.value ≠ 0 then
        let shifted := apply_offset la lo d.value b.value
        { r2 with latitude_shifted := some shifted.1,
                  longitude_shifted := some shifted.2,
                  offset_applied := pyFloatStr d ++ "mi at " ++ pyNumStr b ++ "°" }
      else r2
    | none => r2
  else r2

/-- The success branch of the main loop (lines 568–656): populate the
coordinate/address columns, apply a directional offset when one parses,
then compute and merge the post-geocode flags. -/
noncomputable def successPath (r : LocationRow) (address : String) (la lo : ℝ)
    (ty fa : String) : LocationRow :=
  let r2 := { r with latitude := some la, longitude := some lo,
                     geocoded_address := address,
                     google_formatted_address := fa,
                     location_type := ty }
  let r3 := offsetShift r2 (pyStrip (textOf r.prec_location)) la lo
  let post := computePostFlags r.province_state ty fa
  let merged := mergePostFlags r3.flag_status r3.flag_reason post
  { r3 with flag_status := merged.1, flag_reason := merged.2 }

/-- One iteration of the geocoding loop on an (already pre-flagged) row:
the resulting row, what happened, and the list of base addresses sent to
the provider (empty = no provider call). -/
noncomputable def geocodeStep (r : LocationRow) (o : GeoOutcome) :
    LocationRow × StepTag × List String :=
  if should_geocode r = false then (r, .alreadyDone, [])
  else if is_too_vague r = true then (r, .skippedVague, [])
  else
    match construct_address r with
    | none => (r, .skippedNoAddress, [])
    | some address =>
      let base_address := extract_base_location address
      match geocode_address_google o with
      | (some la, some lo, some ty, some fa) =>
        if la ≠ 0 ∧ lo ≠ 0 then
          (successPath r address la lo ty fa, .geocoded, [base_address])
        else (r, .failed, [base_address])
      | _ => (r, .failed, [base_address])

/-- The whole per-record pipeline: the pre-geocode flag pass (applied to
every row), then the geocoding loop body. -/
noncomputable def runRecord (r : LocationRow) (o : GeoOutcome) :
    LocationRow × StepTag × List String :=
  geocodeStep (preFlagged r) o

/-- The run over the whole table, rows in input order, the provider
response for row `i` given by `oracle i`. -/
noncomputable def runAll (oracle : Nat → GeoOutcome) :
    List LocationRow → Nat → List LocationRow
  | [], _ => []
  | r :: rs, i => (runRecord r (oracle i)).1 :: runAll oracle rs (i + 1)


/-! ## Helper lemmas -/

lemma listPre_append (l t : List Char) : l.isPrefixOf (l ++ t) = true := by
  induction l with
  | nil => simp [List.isPrefixOf]
  | cons c cs ih => simp [List.isPrefixOf, ih]

lemma listPre_refl (l : List Char) : l.isPrefixOf l = true := by
  have h := listPre_append l []
  rwa [List.append_nil] at h

lemma strPre_self (s : String) : strPre s s = true := by
  simp [strPre, listPre_refl]

lemma strPre_append (s t : String) : strPre s (s ++ t) = true := by
  simp [strPre, String.data_append, listPre_append]

lemma strPre_empty (s : String) : strPre "" s = true := by
  cases s with
  | mk l => cases l <;> simp [strPre, List.isPrefixOf]

lemma statusRank_le_two (s : String) : statusRank s ≤ 2 := by
  unfold statusRank
  split
  · exact le_refl 2
  · split <;> omega

lemma atan2_zero_left (x : ℝ) (hx : 0 ≤ x) : atan2 0 x = 0 := by
  unfold atan2
  rcases lt_or_eq_of_le hx with h | h
  · rw [if_pos h, zero_div, Real.arctan_zero]
  · rw [if_neg (by rw [← h]; exact lt_irrefl 0), if_neg (by rw [← h]; exact lt_irrefl 0)]
    simp

/-! ## Claim C10 -/

/-- Claim C10: for every latitude in `[-90, 90]`, every longitude, and every
bearing, `apply_offset lat lon 0 bearing = (lat, lon)`: projecting a zero
distance is the identity on coordinates regardless of bearing. -/
theorem apply_offset_zero_distance (lat lon bearing : ℝ)
    (h1 : -90 ≤ lat) (h2 : lat ≤ 90) :
    apply_offset lat lon 0 bearing = (lat, lon) := by
  have hpi := Real.pi_pos
  have hl : -(Real.pi / 2) ≤ radiansOf lat := by unfold radiansOf; nlinarith
  have hr : radiansOf lat ≤ Real.pi / 2 := by unfold radiansOf; nlinarith
  unfold apply_offset
  dsimp only
  rw [zero_div]
  simp only [Real.cos_zero, Real.sin_zero, mul_one, mul_zero, zero_mul, add_zero]
  rw [Real.arcsin_sin hl hr]
  rw [atan2_zero_left _ (by
    nlinarith [Real.sin_le_one (radiansOf lat), Real.neg_one_le_sin (radiansOf lat)])]
  rw [add_zero]
  unfold degreesOf radiansOf
  have hpne := Real.pi_ne_zero
  simp only [Prod.mk.injEq]
  constructor <;> field_simp

/-- Witness for C10 at a concrete input. -/
theorem apply_offset_zero_distance_witness :
    (-90 ≤ (45 : ℝ) ∧ (45 : ℝ) ≤ 90) ∧ apply_offset 45 7 0 123 = (45, 7) :=
  ⟨by norm_num, apply_offset_zero_distance 45 7 123 (by norm_num) (by norm_num)⟩

/-! ## Claim C5 -/

/-- Claim C5: the post-geocode merge never lowers `flag_status`: a serious
post-flag (state mismatch / unexpected country) forces `WARNING`; otherwise
a nonempty set of post-flags raises `OK` to `REVIEW`; in all other cases
the status is unchanged; and the existing reason trail is always a prefix
of the merged one (reasons are appended, never removed). -/
theorem mergePostFlags_monotone (st rs : String) (post : List String) :
    statusRank st ≤ statusRank (mergePostFlags st rs post).1
    ∧ (post.any seriousPostFlag = true → (mergePostFlags st rs post).1 = "WARNING")
    ∧ (post ≠ [] → post.any seriousPostFlag = false → st = "OK" →
        (mergePostFlags st rs post).1 = "REVIEW")
    ∧ (post ≠ [] → post.any seriousPostFlag = false → st ≠ "OK" →
        (mergePostFlags st rs post).1 = st)
    ∧ (post = [] → mergePostFlags st rs post = (st, rs))
    ∧ strPre rs (mergePostFlags st rs post).2 = true := by
  rcases post with _ | ⟨f, fs⟩
  · refine ⟨?_, ?_, ?_, ?_, ?_, ?_⟩
    · simp [mergePostFlags]
    · intro h; simp at h
    · intro h; simp at h
    · intro h; simp at h
    · intro _; simp [mergePostFlags]
    · simp [mergePostFlags, strPre_self]
  · have hne : ¬((f :: fs).isEmpty = true) := by simp
    by_cases hs : (f :: fs).any seriousPostFlag = true
    · refine ⟨?_, ?_, ?_, ?_, ?_, ?_⟩
      · simp only [mergePostFlags, if_neg hne, hs, if_pos]
        exact statusRank_le_two st
      · intro _; simp only [mergePostFlags, if_neg hne, hs, if_pos]
      · intro _ hs2 _; rw [hs] at hs2; exact absurd hs2 (by simp)
      · intro _ hs2 _; rw [hs] at hs2; exact absurd hs2 (by simp)
      · intro h; exact absurd h (by simp)
      · simp only [mergePostFlags, if_neg hne]
        by_cases hr : rs = ""
        · subst hr; exact strPre_empty _
        · rw [if_pos (by simpa using hr)]
          rw [show rs ++ "; " ++ joinSep "; " (f :: fs) =
            rs ++ ("; " ++ joinSep "; " (f :: fs)) by rw [String.append_assoc]]
          exact strPre_append _ _
    · have hs' : (f :: fs).any seriousPostFlag = false := by
        simpa using hs
      by_cases hok : st = "OK"
      · refine ⟨?_, ?_, ?_, ?_, ?_, ?_⟩
        · simp only [mergePostFlags, if_neg hne, hs', hok]
          decide
        · intro h; rw [h] at hs'; simp at hs'
        · intro _ _ _
          simp only [mergePostFlags, if_neg hne, hs', hok]
          decide
        · intro _ _ hnok; exact absurd hok hnok
        · intro h; exact absurd h (by simp)
        · simp only [mergePostFlags, if_neg hne]
          by_cases hr : rs = ""
          · subst hr; exact strPre_empty _
          · rw [if_pos (by simpa using hr)]
            rw [show rs ++ "; " ++ joinSep "; " (f :: fs) =
              rs ++ ("; " ++ joinSep "; " (f :: fs)) by rw [String.append_assoc]]
            exact strPre_append _ _
      · refine ⟨?_, ?_, ?_, ?_, ?_, ?_⟩
        · simp only [mergePostFlags, if_neg hne, hs', if_neg hok]
          simp
        · intro h; rw [h] at hs'; simp at hs'
        · intro _ _ hok2; exact absurd hok2 hok
        · intro _ _ _
          simp only [mergePostFlags, if_neg hne, hs', if_neg hok]
          simp
        · intro h; exact absurd h (by simp)
        · simp only [mergePostFlags, if_neg hne]
          by_cases hr : rs = ""
          · subst hr; exact strPre_empty _
          · rw [if_pos (by simpa using hr)]
            rw [show rs ++ "; " ++ joinSep "; " (f :: fs) =
              rs ++ ("; " ++ joinSep "; " (f :: fs)) by rw [String.append_assoc]]
            exact strPre_append _ _

/-- Witness for C5 at a concrete input. -/
theorem mergePostFlags_monotone_witness :
    statusRank "OK" ≤ statusRank (mergePostFlags "OK" "prior" ["State mismatch (expected Kansas)"]).1
    ∧ (["State mismatch (expected Kansas)"].any seriousPostFlag = true →
        (mergePostFlags "OK" "prior" ["State mismatch (expected Kansas)"]).1 = "WARNING")
    ∧ (["State mismatch (expected Kansas)"] ≠ [] →
        ["State mismatch (expected Kansas)"].any seriousPostFlag = false → "OK" = "OK" →
        (mergePostFlags "OK" "prior" ["State mismatch (expected Kansas)"]).1 = "REVIEW")
    ∧ (["State mismatch (expected Kansas)"] ≠ [] →
        ["State mismatch (expected Kansas)"].any seriousPostFlag = false → "OK" ≠ "OK" →
        (mergePostFlags "OK" "prior" ["State mismatch (expected Kansas)"]).1 = "OK")
    ∧ (["State mismatch (expected Kansas)"] = [] →
        mergePostFlags "OK" "prior" ["State mismatch (expected Kansas)"] = ("OK", "prior"))
    ∧ strPre "prior" (mergePostFlags "OK" "prior" ["State mismatch (expected Kansas)"]).2 = true :=
  mergePostFlags_monotone "OK" "prior" ["State mismatch (expected Kansas)"]

/-! ## Claim C8: `construct_address` -/

/-- The usable content of an optional cell: the stripped text when the cell
is present and not blank.  (Used only to state the specification-side view
of `construct_address`.) -/
def partOf (o : Option String) : Option String :=
  match o with
  | some s => if pyStrip s = "" then none else some (pyStrip s)
  | none => none

/-- The parts list of `construct_address` as the specification describes
it: in fixed order, only the non-empty parts among precise location, city,
county (suffixed with " County" unless already ending in "county"), state —
and the country, with the literal `"USA"` substituted when country is
absent.  A second definition written from the specification's words, for
comparison with the source-derived `addressParts`. -/
def addressSpecParts (r : LocationRow) : List String :=
  (partOf r.prec_location).toList
    ++ (partOf r.city).toList
    ++ ((partOf r.county).map countyFix).toList
    ++ (partOf r.province_state).toList
    ++ [(partOf r.country).getD "USA"]

lemma partOf_toList (o : Option String) :
    (if hasVal o = true then [pyStrip (textOf o)] else []) = (partOf o).toList := by
  rcases o with _ | s
  · simp [hasVal, partOf]
  · by_cases h : pyStrip s = "" <;> simp [hasVal, partOf, h, textOf]

lemma partOf_county_toList (o : Option String) :
    (if hasVal o = true then [countyFix (pyStrip (textOf o))] else []) =
      ((partOf o).map countyFix).toList := by
  rcases o with _ | s
  · simp [hasVal, partOf]
  · by_cases h : pyStrip s = "" <;> simp [hasVal, partOf, h, textOf]

lemma partOf_country_toList (o : Option String) :
    (if hasVal o = true then [pyStrip (textOf o)] else ["USA"]) =
      [(partOf o).getD "USA"] := by
  rcases o with _ | s
  · simp [hasVal, partOf]
  · by_cases h : pyStrip s = "" <;> simp [hasVal, partOf, h, textOf]

/-- The source's parts list coincides with the specification's view. -/
lemma addressParts_eq_spec (r : LocationRow) : addressParts r = addressSpecParts r := by
  unfold addressParts addressSpecParts
  rw [partOf_toList r.prec_location, partOf_toList r.city,
    partOf_county_toList r.county, partOf_toList r.province_state,
    partOf_country_toList r.country]

lemma addressSpecParts_ne_nil (r : LocationRow) : addressSpecParts r ≠ [] := by
  unfold addressSpecParts
  intro hc
  have h := congrArg List.length hc
  simp [List.length_append] at h

/-- `construct_address` always yields an address (the `"USA"` default makes
the parts list nonempty). -/
lemma construct_address_eq (r : LocationRow) :
    construct_address r = some (joinSep ", " (addressParts r)) := by
  unfold construct_address
  rw [if_pos]
  rw [addressParts_eq_spec r]
  simp [addressSpecParts_ne_nil r]

/-- Claim C8 (amended): `construct_address` joins with `", "`, in fixed
order, exactly the non-empty parts (with the `" County"` suffix rule and
the `"USA"` default for a missing country) — but it never returns nothing:
the `"USA"` default makes the parts list nonempty, and an all-empty record
yields `"USA"`. -/
theorem construct_address_spec (r : LocationRow) :
    construct_address r = some (joinSep ", " (addressSpecParts r))
    ∧ addressSpecParts r ≠ []
    ∧ (hasVal r.prec_location = false → hasVal r.city = false →
        hasVal r.county = false → hasVal r.province_state = false →
        hasVal r.country = false → construct_address r = some "USA") := by
  refine ⟨?_, addressSpecParts_ne_nil r, ?_⟩
  · rw [construct_address_eq r, addressParts_eq_spec r]
  · intro h1 h2 h3 h4 h5
    rw [construct_address_eq r]
    unfold addressParts
    rw [h1, h2, h3, h4, h5]
    rfl

/-- Counterexample to C8 as stated: on the all-empty record,
`construct_address` returns `"USA"`, not nothing. -/
theorem construct_address_empty_counterexample :
    construct_address
      { prec_location := none, city := none, county := none,
        province_state := none, country := none, latitude := none,
        longitude := none, geocoded_address := "", google_formatted_address := "",
        location_type := "", flag_status := "", flag_reason := "",
        latitude_shifted := none, longitude_shifted := none, offset_applied := "" } =
      some "USA" := by decide

/-- Witness for C8 at a concrete input. -/
theorem construct_address_spec_witness :
    construct_address
        { prec_location := some "10 mi E of Topeka", city := none, county := none,
          province_state := some "KS", country := none, latitude := none,
          longitude := none, geocoded_address := "", google_formatted_address := "",
          location_type := "", flag_status := "", flag_reason := "",
          latitude_shifted := none, longitude_shifted := none, offset_applied := "" } =
      some (joinSep ", " (addressSpecParts
        { prec_location := some "10 mi E of Topeka", city := none, county := none,
          province_state := some "KS", country := none, latitude := none,
          longitude := none, geocoded_address := "", google_formatted_address := "",
          location_type := "", flag_status := "", flag_reason := "",
          latitude_shifted := none, longitude_shifted := none, offset_applied := "" }))
    ∧ addressSpecParts
        { prec_location := some "10 mi E of Topeka", city := none, county := none,
          province_state := some "KS", country := none, latitude := none,
          longitude := none, geocoded_address := "", google_formatted_address := "",
          location_type := "", flag_status := "", flag_reason := "",
          latitude_shifted := none, longitude_shifted := none, offset_applied := "" } ≠ []
    ∧ (hasVal (some "10 mi E of Topeka") = false → hasVal (none : Option String) = false →
        hasVal (none : Option String) = false → hasVal (some "KS") = false →
        hasVal (none : Option String) = false →
        construct_address
          { prec_location := some "10 mi E of Topeka", city := none, county := none,
            province_state := some "KS", country := none, latitude := none,
            longitude := none, geocoded_address := "", google_formatted_address := "",
            location_type := "", flag_status := "", flag_reason := "",
            latitude_shifted := none, longitude_shifted := none, offset_applied := "" } =
          some "USA") :=
  construct_address_spec _

/-! ## Claim C2: county+state-only records -/

/-- A cell that fails the `hasVal` test contributes either `"nan"` (missing
cell: `str(NaN)`) or the empty string (whitespace-only cell) to the
analyzed text. -/
lemma hasVal_false_cases (o : Option String) (h : hasVal o = false) :
    pyStrip (textOf o) = "nan" ∨ pyStrip (textOf o) = "" := by
  rcases o with _ | s
  · left; decide
  · right
    simp only [hasVal, Bool.not_eq_false, decide_eq_true_eq] at h
    simpa [textOf] using h

/-- With city and precise location both absent and county and state both
present, exactly the "County/state only" flag fires — plus the
"Multiple counties listed" flag when the county cell names several. -/
lemma computeFlags_county_state_only (r : LocationRow)
    (hc : hasVal r.city = false) (hp : hasVal r.prec_location = false)
    (hco : hasVal r.county = true) (hs : hasVal r.province_state = true) :
    computeFlags r = "County/state only - very vague" ::
      (if subStr "/" (textOf r.county) || subStr " or " (pyLower (textOf r.county)) then
        ["Multiple counties listed"] else []) := by
  rcases hasVal_false_cases _ hp with h1 | h1 <;>
    rcases hasVal_false_cases _ hc with h2 | h2 <;>
    cases hm : (subStr "/" (textOf r.county) || subStr " or " (pyLower (textOf r.county))) <;>
    · simp only [computeFlags, hc, hp, hco, hs, h1, h2, hm]
      decide

/-- Claim C2 (amended): a record with city and precise location absent but
county and state present gets `flag_status = WARNING` and a reason trail
containing the "vague" marker; the "missing state" marker is *not*
produced, since `province_state` is present. -/
theorem flag_county_state_only (r : LocationRow)
    (hc : hasVal r.city = false) (hp : hasVal r.prec_location = false)
    (hco : hasVal r.county = true) (hs : hasVal r.province_state = true) :
    (flag_potential_issues r).1 = "WARNING"
    ∧ subStr "vague" (flag_potential_issues r).2 = true
    ∧ subStr "missing state" (flag_potential_issues r).2 = false := by
  unfold flag_potential_issues
  rw [computeFlags_county_state_only r hc hp hco hs]
  cases hm : (subStr "/" (textOf r.county) || subStr " or " (pyLower (textOf r.county))) <;>
    decide

/-- Counterexample to C2 as stated: on a concrete county+state-only record
the reason trail does not contain a "missing state" marker. -/
theorem flag_county_state_only_counterexample :
    (flag_potential_issues
      { prec_location := none, city := none, county := some "Shawnee",
        province_state := some "Kansas", country := none, latitude := none,
        longitude := none, geocoded_address := "", google_formatted_address := "",
        location_type := "", flag_status := "", flag_reason := "",
        latitude_shifted := none, longitude_shifted := none, offset_applied := "" }).1
      = "WARNING"
    ∧ (flag_potential_issues
      { prec_location := none, city := none, county := some "Shawnee",
        province_state := some "Kansas", country := none, latitude := none,
        longitude := none, geocoded_address := "", google_formatted_address := "",
        location_type := "", flag_status := "", flag_reason := "",
        latitude_shifted := none, longitude_shifted := none, offset_applied := "" }).2
      = "County/state only - very vague"
    ∧ subStr "missing state" "County/state only - very vague" = false := by decide

/-- Witness for C2 at a concrete input. -/
theorem flag_county_state_only_witness :
    (hasVal (none : Option String) = false ∧ hasVal (some "Boone") = true
      ∧ hasVal (some "Iowa") = true)
    ∧ ((flag_potential_issues
        { prec_location := none, city := none, county := some "Boone",
          province_state := some "Iowa", country := none, latitude := none,
          longitude := none, geocoded_address := "", google_formatted_address := "",
          location_type := "", flag_status := "", flag_reason := "",
          latitude_shifted := none, longitude_shifted := none, offset_applied := "" }).1
        = "WARNING"
      ∧ subStr "vague" (flag_potential_issues
        { prec_location := none, city := none, county := some "Boone",
          province_state := some "Iowa", country := none, latitude := none,
          longitude := none, geocoded_address := "", google_formatted_address := "",
          location_type := "", flag_status := "", flag_reason := "",
          latitude_shifted := none, longitude_shifted := none, offset_applied := "" }).2 = true
      ∧ subStr "missing state" (flag_potential_issues
        { prec_location := none, city := none, county := some "Boone",
          province_state := some "Iowa", country := none, latitude := none,
          longitude := none, geocoded_address := "", google_formatted_address := "",
          location_type := "", flag_status := "", flag_reason := "",
          latitude_shifted := none, longitude_shifted := none, offset_applied := "" }).2 = false) :=
  ⟨⟨by decide, by decide, by decide⟩,
    flag_county_state_only _ (by decide) (by decide) (by decide) (by decide)⟩

/-! ## Claim C6: the single-flag severity rule -/

/-- Every flag string `flag_potential_issues` can produce. -/
def allFlagStrings : List String :=
  ["County/state only - very vague",
   "Missing state - may be ambiguous",
   "Directional offset - API may ignore distance/direction",
   "Vague reference point (behind/at/vic/near)",
   "Water feature - may use centerline/centroid",
   "Park/natural area (just name - may use geometric center)",
   "Park/natural area with detail (may still use center)",
   "Multiple counties listed",
   "Abbreviated location name",
   "Possible acronym/abbreviation",
   "Contains parenthetical info - may confuse geocoder"]

lemma iteSubsetOf {α : Type} {c : Prop} [Decidable c] {l1 l2 L : List α}
    (h1 : l1 ⊆ L) (h2 : l2 ⊆ L) : (if c then l1 else l2) ⊆ L := by
  split <;> assumption

/-- The flags a record fires are among the eleven fixed flag strings. -/
lemma computeFlags_sub (r : LocationRow) : computeFlags r ⊆ allFlagStrings := by
  unfold computeFlags
  simp only [List.append_subset]
  refine ⟨⟨⟨⟨⟨⟨⟨⟨?_, ?_⟩, ?_⟩, ?_⟩, ?_⟩, ?_⟩, ?_⟩, ?_⟩, ?_⟩ <;>
    first
      | (apply iteSubsetOf <;>
          first
            | decide
            | (apply iteSubsetOf <;>
                first
                  | decide
                  | (apply iteSubsetOf <;> decide)))
      | decide

/-- Claim C6 (amended): with exactly one fired flag and no critical flag,
the status is `REVIEW` precisely when the flag is the directional-offset
flag, the vague-reference flag, or the "Abbreviated location name" flag —
and `OK` otherwise, *including* for "Possible acronym/abbreviation"
(whose text does not contain the word "abbreviated"). -/
theorem singleFlag_status (r : LocationRow)
    (h1 : (computeFlags r).length = 1)
    (h2 : hasCriticalFlags (computeFlags r) = false) :
    ((flag_potential_issues r).1 = "REVIEW" ↔
      (computeFlags r = ["Directional offset - API may ignore distance/direction"]
        ∨ computeFlags r = ["Vague reference point (behind/at/vic/near)"]
        ∨ computeFlags r = ["Abbreviated location name"]))
    ∧ ((flag_potential_issues r).1 = "REVIEW" ∨ (flag_potential_issues r).1 = "OK") := by
  obtain ⟨f, hf⟩ : ∃ f, computeFlags r = [f] := by
    rcases hcf : computeFlags r with _ | ⟨a, _ | ⟨b, t⟩⟩
    · rw [hcf] at h1; simp at h1
    · exact ⟨a, rfl⟩
    · rw [hcf] at h1; simp at h1
  have hmem : f ∈ allFlagStrings := computeFlags_sub r (by rw [hf]; exact List.mem_singleton_self f)
  rw [hf] at h2
  unfold flag_potential_issues
  rw [hf]
  simp only [allFlagStrings, List.mem_cons, List.not_mem_nil, or_false] at hmem
  rcases hmem with rfl | rfl | rfl | rfl | rfl | rfl | rfl | rfl | rfl | rfl | rfl <;>
    first
      | exact absurd h2 (by decide)
      | decide

/-- Counterexample to C6 as stated: a record whose only fired flag is
"Possible acronym/abbreviation" (no critical flag) ends at `OK`, not
`REVIEW`. -/
theorem singleFlag_status_counterexample :
    computeFlags
      { prec_location := some "ABC", city := none, county := none,
        province_state := some "Colorado", country := none, latitude := none,
        longitude := none, geocoded_address := "", google_formatted_address := "",
        location_type := "", flag_status := "", flag_reason := "",
        latitude_shifted := none, longitude_shifted := none, offset_applied := "" } =
      ["Possible acronym/abbreviation"]
    ∧ hasCriticalFlags ["Possible acronym/abbreviation"] = false
    ∧ (flag_potential_issues
      { prec_location := some "ABC", city := none, county := none,
        province_state := some "Colorado", country := none, latitude := none,
        longitude := none, geocoded_address := "", google_formatted_address := "",
        location_type := "", flag_status := "", flag_reason := "",
        latitude_shifted := none, longitude_shifted := none, offset_applied := "" }).1
      = "OK" := by decide

/-- Witness for C6 at a concrete input (single vague-reference flag). -/
theorem singleFlag_status_witness :
    ((computeFlags
        { prec_location := some "behind the barn", city := none, county := none,
          province_state := some "Iowa", country := none, latitude := none,
          longitude := none, geocoded_address := "", google_formatted_address := "",
          location_type := "", flag_status := "", flag_reason := "",
          latitude_shifted := none, longitude_shifted := none, offset_applied := "" }).length = 1
      ∧ hasCriticalFlags (computeFlags
        { prec_location := some "behind the barn", city := none, county := none,
          province_state := some "Iowa", country := none, latitude := none,
          longitude := none, geocoded_address := "", google_formatted_address := "",
          location_type := "", flag_status := "", flag_reason := "",
          latitude_shifted := none, longitude_shifted := none, offset_applied := "" }) = false)
    ∧ (((flag_potential_issues
        { prec_location := some "behind the barn", city := none, county := none,
          province_state := some "Iowa", country := none, latitude := none,
          longitude := none, geocoded_address := "", google_formatted_address := "",
          location_type := "", flag_status := "", flag_reason := "",
          latitude_shifted := none, longitude_shifted := none, offset_applied := "" }).1 = "REVIEW" ↔
        (computeFlags
          { prec_location := some "behind the barn", city := none, county := none,
            province_state := some "Iowa", country := none, latitude := none,
            longitude := none, geocoded_address := "", google_formatted_address := "",
            location_type := "", flag_status := "", flag_reason := "",
            latitude_shifted := none, longitude_shifted := none, offset_applied := "" } =
            ["Directional offset - API may ignore distance/direction"]
          ∨ computeFlags
            { prec_location := some "behind the barn", city := none, county := none,
              province_state := some "Iowa", country := none, latitude := none,
              longitude := none, geocoded_address := "", google_formatted_address := "",
              location_type := "", flag_status := "", flag_reason := "",
              latitude_shifted := none, longitude_shifted := none, offset_applied := "" } =
            ["Vague reference point (behind/at/vic/near)"]
          ∨ computeFlags
            { prec_location := some "behind the barn", city := none, county := none,
              province_state := some "Iowa", country := none, latitude := none,
              longitude := none, geocoded_address := "", google_formatted_address := "",
              location_type := "", flag_status := "", flag_reason := "",
              latitude_shifted := none, longitude_shifted := none, offset_applied := "" } =
            ["Abbreviated location name"]))
      ∧ ((flag_potential_issues
          { prec_location := some "behind the barn", city := none, county := none,
            province_state := some "Iowa", country := none, latitude := none,
            longitude := none, geocoded_address := "", google_formatted_address := "",
            location_type := "", flag_status := "", flag_reason := "",
            latitude_shifted := none, longitude_shifted := none, offset_applied := "" }).1 = "REVIEW"
        ∨ (flag_potential_issues
          { prec_location := some "behind the barn", city := none, county := none,
            province_state := some "Iowa", country := none, latitude := none,
            longitude := none, geocoded_address := "", google_formatted_address := "",
            location_type := "", flag_status := "", flag_reason := "",
            latitude_shifted := none, longitude_shifted := none, offset_applied := "" }).1 = "OK")) :=
  ⟨⟨by decide, by decide⟩, singleFlag_status _ (by decide) (by decide)⟩

/-! ## Claim C7: the state-mismatch post-flag -/

lemma subOccurs_nil (l : List Char) : subOccurs [] l = true := by
  cases l <;> simp [subOccurs, List.isPrefixOf]

/-- The empty pattern occurs in every string (Python `'' in s` is `True`). -/
lemma subStr_empty_pat (s : String) : subStr "" s = true := by
  simp [subStr, subOccurs_nil]

/-- Claim C7 (amended): the state-mismatch flag is governed by the
full-name table only.  When the lowercased `province_state` is a key of
the table, the flag fires iff neither the state name nor its looked-up
abbreviation occurs in the (lowercased) formatted address.  When it is
*not* a key — in particular when `province_state` is already a 2-letter
abbreviation such as `"KS"` — the lookup yields `""`, the empty string
occurs in every address, and the flag is never raised. -/
theorem stateMismatchFlag_spec (ps fl : String) :
    (abbrevLookup (pyLower (pyStrip ps)) = "" →
      stateMismatchFlag (some ps) fl = [])
    ∧ (pyStrip ps ≠ "" →
        (stateMismatchFlag (some ps) fl =
            ["State mismatch (expected " ++ pyStrip ps ++ ")"] ↔
          subStr (pyLower (pyStrip ps)) fl = false
          ∧ subStr (abbrevLookup (pyLower (pyStrip ps))) fl = false))
    ∧ (stateMismatchFlag (some ps) fl = [] ∨
        stateMismatchFlag (some ps) fl =
          ["State mismatch (expected " ++ pyStrip ps ++ ")"]) := by
  refine ⟨?_, ?_, ?_⟩
  · intro hab
    simp only [stateMismatchFlag, hab, subStr_empty_pat, Bool.or_true, Bool.not_true,
      Bool.and_false, Bool.false_eq_true, if_false]
  · intro hne
    by_cases h1 : subStr (pyLower (pyStrip ps)) fl = true <;>
      by_cases h2 : subStr (abbrevLookup (pyLower (pyStrip ps))) fl = true <;>
        simp [stateMismatchFlag, h1, h2, hne]
  · unfold stateMismatchFlag
    dsimp only
    split
    · right; rfl
    · left; rfl

/-- Counterexample to C7 as stated: `province_state = "KS"` and a formatted
address containing neither `"ks"` nor `"kansas"` raises no post-flag at
all. -/
theorem stateMismatchFlag_counterexample :
    subStr "ks" (pyLower "Paris, France") = false
    ∧ subStr "kansas" (pyLower "Paris, France") = false
    ∧ computePostFlags (some "KS") "ROOFTOP" "Paris, France" = [] := by decide

/-- Witness for C7 at a concrete input. -/
theorem stateMismatchFlag_spec_witness :
    ((abbrevLookup (pyLower (pyStrip "Kansas")) = "" →
        stateMismatchFlag (some "Kansas") "paris, france" = [])
      ∧ (pyStrip "Kansas" ≠ "" →
          (stateMismatchFlag (some "Kansas") "paris, france" =
              ["State mismatch (expected " ++ pyStrip "Kansas" ++ ")"] ↔
            subStr (pyLower (pyStrip "Kansas")) "paris, france" = false
            ∧ subStr (abbrevLookup (pyLower (pyStrip "Kansas"))) "paris, france" = false))
      ∧ (stateMismatchFlag (some "Kansas") "paris, france" = [] ∨
          stateMismatchFlag (some "Kansas") "paris, france" =
            ["State mismatch (expected " ++ pyStrip "Kansas" ++ ")"])) :=
  stateMismatchFlag_spec "Kansas" "paris, france"

/-! ## Pipeline helper lemmas and test fixtures -/

/-- A fresh input row with the given cells (derived columns initialized the
way the script initializes missing columns). -/
def rowOf (prec city county state country : Option String) (lat lon : Option ℝ) :
    LocationRow :=
  { prec_location := prec, city := city, county := county,
    province_state := state, country := country, latitude := lat,
    longitude := lon, geocoded_address := "", google_formatted_address := "",
    location_type := "", flag_status := "", flag_reason := "",
    latitude_shifted := none, longitude_shifted := none, offset_applied := "" }

/-- The end-to-end record of the specification's Topeka example. -/
def topekaRow : LocationRow :=
  rowOf (some "10 mi E of Topeka") none none (some "KS") none none none

/-- The same record pointing due north. -/
def topekaNorthRow : LocationRow :=
  rowOf (some "10 mi N of Topeka") none none (some "KS") none none none

/-- A geocodable record with no directional offset. -/
def candidateRow : LocationRow :=
  rowOf (some "Topeka") none none (some "Kansas") none none none

/-- A record that was fully geocoded and carries merged post-geocode flags
from an earlier run. -/
def geocodedFlaggedRow : LocationRow :=
  { rowOf (some "Topeka") none none (some "Kansas") none (some 39) (some (-95)) with
      flag_status := "REVIEW", flag_reason := "Geometric center of area",
      location_type := "GEOMETRIC_CENTER",
      google_formatted_address := "Topeka, KS, USA" }

/-- A record that was fully geocoded and whose flag fields equal the fresh
pre-geocode flag output. -/
def geocodedOkRow : LocationRow :=
  { rowOf (some "Topeka") none none (some "Kansas") none (some 39) (some (-95)) with
      flag_status := "OK", flag_reason := "" }

/-- The failure outcomes of one provider call, as the main loop classifies
them: any non-success result — or a success whose latitude or longitude is
the (falsy) number 0. -/
def failureResult : GeoOutcome → Prop
  | .success la lo _ _ => la = 0 ∨ lo = 0
  | _ => True

lemma offsetShift_latitude (r2 : LocationRow) (p : String) (la lo : ℝ) :
    (offsetShift r2 p la lo).latitude = r2.latitude := by
  unfold offsetShift
  split
  · split
    · split <;> rfl
    · rfl
  · rfl

lemma offsetShift_longitude (r2 : LocationRow) (p : String) (la lo : ℝ) :
    (offsetShift r2 p la lo).longitude = r2.longitude := by
  unfold offsetShift
  split
  · split
    · split <;> rfl
    · rfl
  · rfl

lemma offsetShift_location_type (r2 : LocationRow) (p : String) (la lo : ℝ) :
    (offsetShift r2 p la lo).location_type = r2.location_type := by
  unfold offsetShift
  split
  · split
    · split <;> rfl
    · rfl
  · rfl

lemma offsetShift_formatted (r2 : LocationRow) (p : String) (la lo : ℝ) :
    (offsetShift r2 p la lo).google_formatted_address =
      r2.google_formatted_address := by
  unfold offsetShift
  split
  · split
    · split <;> rfl
    · rfl
  · rfl

lemma offsetShift_geocoded_address (r2 : LocationRow) (p : String) (la lo : ℝ) :
    (offsetShift r2 p la lo).geocoded_address = r2.geocoded_address := by
  unfold offsetShift
  split
  · split
    · split <;> rfl
    · rfl
  · rfl

/-- When the re-parse finds an offset whose bearing is the table's `N` entry
(the Python `int` 0), the truthiness test `if distance and bearing:` fails
and no shift is applied. -/
lemma offsetShift_zero_bearing (r2 : LocationRow) (p : String) (la lo : ℝ) (d : PyNum)
    (hp : parse_directional_offset p = some (d, { mant := 0, exp := 0, isInt := true })) :
    offsetShift r2 p la lo = r2 := by
  unfold offsetShift
  split
  · rw [hp]
    dsimp only
    rw [if_neg]
    rintro ⟨-, hb⟩
    exact hb (by norm_num [PyNum.value])
  · rfl

/-- When the re-parse finds an offset with both values truthy, the shifted
coordinates and the `offset_applied` descriptor are written. -/
lemma offsetShift_applied (r2 : LocationRow) (p : String) (la lo : ℝ) (d b : PyNum)
    (hp : parse_directional_offset p = some (d, b))
    (hd : d.value ≠ 0) (hb : b.value ≠ 0) (hpne : p ≠ "") :
    offsetShift r2 p la lo =
      { r2 with latitude_shifted := some (apply_offset la lo d.value b.value).1,
                longitude_shifted := some (apply_offset la lo d.value b.value).2,
                offset_applied := pyFloatStr d ++ "mi at " ++ pyNumStr b ++ "°" } := by
  unfold offsetShift
  rw [if_pos (by simp [hpne]), hp]
  dsimp only
  rw [if_pos ⟨hd, hb⟩]

lemma successPath_main_fields (r : LocationRow) (address : String) (la lo : ℝ)
    (ty fa : String) :
    (successPath r address la lo ty fa).latitude = some la
    ∧ (successPath r address la lo ty fa).longitude = some lo
    ∧ (successPath r address la lo ty fa).location_type = ty
    ∧ (successPath r address la lo ty fa).google_formatted_address = fa
    ∧ (successPath r address la lo ty fa).geocoded_address = address := by
  unfold successPath
  dsimp only
  refine ⟨?_, ?_, ?_, ?_, ?_⟩ <;>
    simp [offsetShift_latitude, offsetShift_longitude, offsetShift_location_type,
      offsetShift_formatted, offsetShift_geocoded_address]

lemma successPath_offset_fields (r : LocationRow) (address : String) (la lo : ℝ)
    (ty fa : String) (d b : PyNum)
    (hp : parse_directional_offset (pyStrip (textOf r.prec_location)) = some (d, b))
    (hd : d.value ≠ 0) (hb : b.value ≠ 0)
    (hpne : pyStrip (textOf r.prec_location) ≠ "") :
    (successPath r address la lo ty fa).latitude_shifted =
        some (apply_offset la lo d.value b.value).1
    ∧ (successPath r address la lo ty fa).longitude_shifted =
        some (apply_offset la lo d.value b.value).2
    ∧ (successPath r address la lo ty fa).offset_applied =
        pyFloatStr d ++ "mi at " ++ pyNumStr b ++ "°" := by
  unfold successPath
  dsimp only
  rw [offsetShift_applied _ _ _ _ d b hp hd hb hpne]
  exact ⟨rfl, rfl, rfl⟩

lemma successPath_offset_skipped (r : LocationRow) (address : String) (la lo : ℝ)
    (ty fa : String) (d : PyNum)
    (hp : parse_directional_offset (pyStrip (textOf r.prec_location)) =
      some (d, { mant := 0, exp := 0, isInt := true })) :
    (successPath r address la lo ty fa).latitude_shifted = r.latitude_shifted
    ∧ (successPath r address la lo ty fa).longitude_shifted = r.longitude_shifted
    ∧ (successPath r address la lo ty fa).offset_applied = r.offset_applied := by
  unfold successPath
  dsimp only
  rw [offsetShift_zero_bearing _ _ _ _ d hp]
  exact ⟨rfl, rfl, rfl⟩

lemma geocodeStep_success (r : LocationRow) (la lo : ℝ) (ty fa : String)
    (hsg : should_geocode r = true) (hv : is_too_vague r = false)
    (hla : la ≠ 0) (hlo : lo ≠ 0) :
    geocodeStep r (.success la lo ty fa) =
      (successPath r (joinSep ", " (addressParts r)) la lo ty fa, .geocoded,
       [extract_base_location (joinSep ", " (addressParts r))]) := by
  unfold geocodeStep
  rw [if_neg (by simp [hsg]), if_neg (by simp [hv]), construct_address_eq r]
  dsimp only [geocode_address_google]
  rw [if_pos ⟨hla, hlo⟩]

lemma geocodeStep_failed (r : LocationRow) (o : GeoOutcome)
    (hsg : should_geocode r = true) (hv : is_too_vague r = false)
    (hf : failureResult o) :
    geocodeStep r o =
      (r, .failed, [extract_base_location (joinSep ", " (addressParts r))]) := by
  unfold geocodeStep
  rw [if_neg (by simp [hsg]), if_neg (by simp [hv]), construct_address_eq r]
  cases o
  case success la lo ty fa =>
    dsimp only [geocode_address_google]
    rw [if_neg]
    rintro ⟨hla, hlo⟩
    rcases hf with h | h
    · exact hla h
    · exact hlo h
  all_goals rfl

lemma runAll_length (oracle : Nat → GeoOutcome) (rows : List LocationRow) (i : Nat) :
    (runAll oracle rows i).length = rows.length := by
  induction rows generalizing i with
  | nil => rfl
  | cons r rs ih => simp [runAll, ih]

/-! ## Claim C9: re-running on an already-geocoded record -/

/-- Claim C9 (amended): on a record with both coordinates present the
pipeline makes no provider call (`[]` addresses sent) and only the
`flag_status`/`flag_reason` columns are touched — they are *recomputed* by
the pre-geocode pass, which runs on every row.  All other fields are
unchanged, and the record is completely unchanged precisely when its flag
fields already equal the fresh pre-geocode output (so merged post-geocode
flags from an earlier run are overwritten, not preserved). -/
theorem rerun_fully_geocoded (r : LocationRow) (o : GeoOutcome)
    (h1 : r.latitude.isSome = true) (h2 : r.longitude.isSome = true) :
    runRecord r o = (preFlagged r, StepTag.alreadyDone, ([] : List String))
    ∧ (preFlagged r).prec_location = r.prec_location
    ∧ (preFlagged r).city = r.city
    ∧ (preFlagged r).county = r.county
    ∧ (preFlagged r).province_state = r.province_state
    ∧ (preFlagged r).country = r.country
    ∧ (preFlagged r).latitude = r.latitude
    ∧ (preFlagged r).longitude = r.longitude
    ∧ (preFlagged r).geocoded_address = r.geocoded_address
    ∧ (preFlagged r).google_formatted_address = r.google_formatted_address
    ∧ (preFlagged r).location_type = r.location_type
    ∧ (preFlagged r).latitude_shifted = r.latitude_shifted
    ∧ (preFlagged r).longitude_shifted = r.longitude_shifted
    ∧ (preFlagged r).offset_applied = r.offset_applied
    ∧ (r.flag_status = (flag_potential_issues r).1 →
        r.flag_reason = (flag_potential_issues r).2 →
        runRecord r o = (r, StepTag.alreadyDone, ([] : List String))) := by
  obtain ⟨a, ha⟩ := Option.isSome_iff_exists.mp h1
  obtain ⟨b, hb⟩ := Option.isSome_iff_exists.mp h2
  have hsg : should_geocode (preFlagged r) = false := by
    unfold should_geocode preFlagged
    dsimp only
    rw [ha, hb]
    rfl
  have hrun : runRecord r o = (preFlagged r, StepTag.alreadyDone, []) := by
    unfold runRecord geocodeStep
    rw [if_pos hsg]
  refine ⟨hrun, rfl, rfl, rfl, rfl, rfl, rfl, rfl, rfl, rfl, rfl, rfl, rfl, rfl, ?_⟩
  intro hfs hfr
  have hpre : preFlagged r = r := by
    unfold preFlagged
    rw [← hfs, ← hfr]
  rw [hrun, hpre]

/-- Counterexample to C9 as stated: a fully geocoded record carrying merged
post-geocode flags has its `flag_status`/`flag_reason` overwritten by the
rerun (no provider call is made, but the fields do change). -/
theorem rerun_fully_geocoded_counterexample :
    (runRecord geocodedFlaggedRow GeoOutcome.zeroResults).2.2 = ([] : List String)
    ∧ (runRecord geocodedFlaggedRow GeoOutcome.zeroResults).1.flag_status = "OK"
    ∧ (runRecord geocodedFlaggedRow GeoOutcome.zeroResults).1.flag_reason = ""
    ∧ geocodedFlaggedRow.flag_status = "REVIEW"
    ∧ geocodedFlaggedRow.flag_reason = "Geometric center of area" := by decide

/-- Witness for C9 at a concrete input. -/
theorem rerun_fully_geocoded_witness :
    (geocodedOkRow.latitude.isSome = true ∧ geocodedOkRow.longitude.isSome = true)
    ∧ (runRecord geocodedOkRow GeoOutcome.zeroResults =
        (preFlagged geocodedOkRow, StepTag.alreadyDone, ([] : List String))
      ∧ (preFlagged geocodedOkRow).prec_location = geocodedOkRow.prec_location
      ∧ (preFlagged geocodedOkRow).city = geocodedOkRow.city
      ∧ (preFlagged geocodedOkRow).county = geocodedOkRow.county
      ∧ (preFlagged geocodedOkRow).province_state = geocodedOkRow.province_state
      ∧ (preFlagged geocodedOkRow).country = geocodedOkRow.country
      ∧ (preFlagged geocodedOkRow).latitude = geocodedOkRow.latitude
      ∧ (preFlagged geocodedOkRow).longitude = geocodedOkRow.longitude
      ∧ (preFlagged geocodedOkRow).geocoded_address = geocodedOkRow.geocoded_address
      ∧ (preFlagged geocodedOkRow).google_formatted_address =
          geocodedOkRow.google_formatted_address
      ∧ (preFlagged geocodedOkRow).location_type = geocodedOkRow.location_type
      ∧ (preFlagged geocodedOkRow).latitude_shifted = geocodedOkRow.latitude_shifted
      ∧ (preFlagged geocodedOkRow).longitude_shifted = geocodedOkRow.longitude_shifted
      ∧ (preFlagged geocodedOkRow).offset_applied = geocodedOkRow.offset_applied
      ∧ (geocodedOkRow.flag_status = (flag_potential_issues geocodedOkRow).1 →
          geocodedOkRow.flag_reason = (flag_potential_issues geocodedOkRow).2 →
          runRecord geocodedOkRow GeoOutcome.zeroResults =
            (geocodedOkRow, StepTag.alreadyDone, ([] : List String)))) :=
  ⟨⟨rfl, rfl⟩, rerun_fully_geocoded geocodedOkRow GeoOutcome.zeroResults rfl rfl⟩

/-! ## Claim C1: success populates, failure is counted and skipped over -/

/-- Claim C1 (amended): for a geocode candidate (coordinates missing, not
too vague), a provider success with both coordinates nonzero populates
latitude/longitude/location-type/formatted-address and the row counts as
geocoded; any failure outcome — and also a success carrying a zero
coordinate, which the `if lat and lon:` truthiness test conflates with
failure — leaves the row exactly as the pre-flag pass produced it
(coordinates untouched) and counts it as failed; and processing always
yields one output row per input row, so a failure never aborts the rest of
the run. -/
theorem geocode_outcome_handling (r : LocationRow) (oracle : Nat → GeoOutcome)
    (hsg : should_geocode r = true) (hv : is_too_vague r = false) :
    (∀ la lo : ℝ, ∀ ty fa : String, la ≠ 0 → lo ≠ 0 →
      (runRecord r (GeoOutcome.success la lo ty fa)).1.latitude = some la
      ∧ (runRecord r (GeoOutcome.success la lo ty fa)).1.longitude = some lo
      ∧ (runRecord r (GeoOutcome.success la lo ty fa)).1.location_type = ty
      ∧ (runRecord r (GeoOutcome.success la lo ty fa)).1.google_formatted_address = fa
      ∧ (runRecord r (GeoOutcome.success la lo ty fa)).2.1 = StepTag.geocoded)
    ∧ (∀ o : GeoOutcome, failureResult o →
        runRecord r o = (preFlagged r, StepTag.failed,
          [extract_base_location (joinSep ", " (addressParts r))])
        ∧ (preFlagged r).latitude = r.latitude
        ∧ (preFlagged r).longitude = r.longitude)
    ∧ (∀ rows : List LocationRow, ∀ i : Nat,
        (runAll oracle rows i).length = rows.length) := by
  have hsg' : should_geocode (preFlagged r) = true := hsg
  have hv' : is_too_vague (preFlagged r) = false := hv
  refine ⟨?_, ?_, ?_⟩
  · intro la lo ty fa hla hlo
    have h := geocodeStep_success (preFlagged r) la lo ty fa hsg' hv' hla hlo
    have hm := successPath_main_fields (preFlagged r)
      (joinSep ", " (addressParts (preFlagged r))) la lo ty fa
    unfold runRecord
    rw [h]
    exact ⟨hm.1, hm.2.1, hm.2.2.1, hm.2.2.2.1, rfl⟩
  · intro o hf
    have h := geocodeStep_failed (preFlagged r) o hsg' hv' hf
    unfold runRecord
    rw [h]
    exact ⟨rfl, rfl, rfl⟩
  · intro rows i
    exact runAll_length oracle rows i

/-- Counterexample to C1 as stated: a provider *success* whose latitude is
the number 0 is treated as a failure (`if lat and lon:`): the coordinates
stay unset and the row is counted as failed. -/
theorem geocode_outcome_handling_counterexample :
    (runRecord candidateRow (GeoOutcome.success 0 25 "ROOFTOP" "Null Island")).1.latitude
      = none
    ∧ (runRecord candidateRow (GeoOutcome.success 0 25 "ROOFTOP" "Null Island")).2.1
      = StepTag.failed := by
  have h := geocodeStep_failed (preFlagged candidateRow)
    (GeoOutcome.success 0 25 "ROOFTOP" "Null Island") (by decide) (by decide)
    (Or.inl rfl)
  unfold runRecord
  rw [h]
  exact ⟨rfl, rfl⟩

/-- Witness for C1 at a concrete input. -/
theorem geocode_outcome_handling_witness :
    (should_geocode candidateRow = true ∧ is_too_vague candidateRow = false)
    ∧ ((∀ la lo : ℝ, ∀ ty fa : String, la ≠ 0 → lo ≠ 0 →
        (runRecord candidateRow (GeoOutcome.success la lo ty fa)).1.latitude = some la
        ∧ (runRecord candidateRow (GeoOutcome.success la lo ty fa)).1.longitude = some lo
        ∧ (runRecord candidateRow (GeoOutcome.success la lo ty fa)).1.location_type = ty
        ∧ (runRecord candidateRow
            (GeoOutcome.success la lo ty fa)).1.google_formatted_address = fa
        ∧ (runRecord candidateRow (GeoOutcome.success la lo ty fa)).2.1 =
            StepTag.geocoded)
      ∧ (∀ o : GeoOutcome, failureResult o →
          runRecord candidateRow o = (preFlagged candidateRow, StepTag.failed,
            [extract_base_location (joinSep ", " (addressParts candidateRow))])
          ∧ (preFlagged candidateRow).latitude = candidateRow.latitude
          ∧ (preFlagged candidateRow).longitude = candidateRow.longitude)
      ∧ (∀ rows : List LocationRow, ∀ i : Nat,
          (runAll (fun _ => GeoOutcome.zeroResults) rows i).length = rows.length)) :=
  ⟨⟨by decide, by decide⟩,
    geocode_outcome_handling candidateRow (fun _ => GeoOutcome.zeroResults)
      (by decide) (by decide)⟩

/-! ## Claim C3: the bearing-0 (due north) offset is never applied -/

/-- Claim C3 is contradicted by the code: for `"10 mi N of Topeka"` the
re-parse *does* yield the pair (10 miles, bearing 0°), but the application
site tests `if distance and bearing:` and the Python `int` 0 is falsy, so
the shifted coordinates are never written and `offset_applied` stays
empty — even though the base location was successfully resolved. -/
theorem north_offset_detected_but_skipped :
    parse_directional_offset "10 mi N of Topeka" =
      some ({ mant := 10, exp := 0, isInt := false },
            { mant := 0, exp := 0, isInt := true })
    ∧ (runRecord topekaNorthRow
        (GeoOutcome.success 39 (-95) "APPROXIMATE" "Topeka, KS, USA")).1.latitude = some 39
    ∧ (runRecord topekaNorthRow
        (GeoOutcome.success 39 (-95) "APPROXIMATE" "Topeka, KS, USA")).1.latitude_shifted
      = none
    ∧ (runRecord topekaNorthRow
        (GeoOutcome.success 39 (-95) "APPROXIMATE" "Topeka, KS, USA")).1.longitude_shifted
      = none
    ∧ (runRecord topekaNorthRow
        (GeoOutcome.success 39 (-95) "APPROXIMATE" "Topeka, KS, USA")).1.offset_applied
      = "" := by
  have h := geocodeStep_success (preFlagged topekaNorthRow) 39 (-95)
    "APPROXIMATE" "Topeka, KS, USA" (by decide) (by decide)
    (by norm_num) (by norm_num)
  have hp : parse_directional_offset
      (pyStrip (textOf (preFlagged topekaNorthRow).prec_location)) =
      some ({ mant := 10, exp := 0, isInt := false },
            { mant := 0, exp := 0, isInt := true }) := by decide
  have hsk := successPath_offset_skipped (preFlagged topekaNorthRow)
    (joinSep ", " (addressParts (preFlagged topekaNorthRow))) 39 (-95)
    "APPROXIMATE" "Topeka, KS, USA" _ hp
  have hm := successPath_main_fields (preFlagged topekaNorthRow)
    (joinSep ", " (addressParts (preFlagged topekaNorthRow))) 39 (-95)
    "APPROXIMATE" "Topeka, KS, USA"
  refine ⟨by decide, ?_, ?_, ?_, ?_⟩ <;>
    · unfold runRecord
      rw [h]
      first
        | exact hm.1
        | exact hsk.1
        | exact hsk.2.1
        | exact hsk.2.2

/-! ## Claim C4: the Topeka end-to-end example -/

lemma atan2_pos_of_pos (y x : ℝ) (hy : 0 < y) : 0 < atan2 y x := by
  unfold atan2
  split
  · rename_i hx
    have h := Real.arctan_strictMono (div_pos hy hx)
    rwa [Real.arctan_zero] at h
  · repeat' split
    all_goals linarith [Real.neg_pi_div_two_lt_arctan (y / x), Real.pi_pos]

lemma degreesOf_lt_of_pos (lo A : ℝ) (hA : 0 < A) :
    lo < degreesOf (radiansOf lo + A) := by
  unfold degreesOf radiansOf
  have hpi := Real.pi_pos
  have h1 : lo * (Real.pi / 180) * (180 / Real.pi) = lo := by field_simp
  have hexp : (lo * (Real.pi / 180) + A) * (180 / Real.pi) =
      lo * (Real.pi / 180) * (180 / Real.pi) + A * (180 / Real.pi) := by ring
  have h2 : 0 < A * (180 / Real.pi) := mul_pos hA (by positivity)
  linarith [hexp, h1, h2]

/-- Travelling 10 miles due east (bearing 90°) strictly increases the
longitude, for any base latitude strictly between the poles. -/
lemma apply_offset_east_10 (la lo : ℝ) (h3 : -90 < la) (h4 : la < 90) :
    lo < (apply_offset la lo 10 90).2 := by
  have hpi := Real.pi_pos
  have hbr : radiansOf 90 = Real.pi / 2 := by unfold radiansOf; ring
  have hdr : (0 : ℝ) < 10 / 3959 := by norm_num
  have hdrpi : (10 : ℝ) / 3959 < Real.pi := by nlinarith [Real.pi_gt_three]
  have hsin : 0 < Real.sin (10 / 3959) := Real.sin_pos_of_pos_of_lt_pi hdr hdrpi
  have hcos : 0 < Real.cos (radiansOf la) := by
    apply Real.cos_pos_of_mem_Ioo
    constructor <;> · unfold radiansOf; nlinarith
  unfold apply_offset
  dsimp only
  rw [hbr, Real.sin_pi_div_two, one_mul]
  exact degreesOf_lt_of_pos lo _ (atan2_pos_of_pos _ _ (mul_pos hsin hcos))

/-- Travelling 10 miles due east changes the latitude by at most the
angular distance travelled, in degrees (≈ 0.145°): the "latitude stays
approximately equal" part of the Topeka example. -/
lemma apply_offset_lat_bound_10_90 (la lo : ℝ) (h3 : -90 < la) (h4 : la < 90) :
    |(apply_offset la lo 10 90).1 - la| ≤ 10 / 3959 * (180 / Real.pi) := by
  have hpi := Real.pi_pos
  have hbr : radiansOf 90 = Real.pi / 2 := by unfold radiansOf; ring
  have hdr : (0 : ℝ) < 10 / 3959 := by norm_num
  have hdrpi : (10 : ℝ) / 3959 < Real.pi := by nlinarith [Real.pi_gt_three]
  have hsin : 0 < Real.sin (10 / 3959) := Real.sin_pos_of_pos_of_lt_pi hdr hdrpi
  have hcos : 0 ≤ Real.cos (radiansOf la) := by
    apply le_of_lt
    apply Real.cos_pos_of_mem_Ioo
    constructor <;> · unfold radiansOf; nlinarith
  have hlat1 : -(Real.pi / 2) < radiansOf la := by unfold radiansOf; nlinarith
  have hlat2 : radiansOf la < Real.pi / 2 := by unfold radiansOf; nlinarith
  unfold apply_offset
  dsimp only
  rw [hbr, Real.cos_pi_div_two, mul_zero, add_zero]
  set latr := radiansOf la with hlatr
  set dr : ℝ := 10 / 3959 with hdrdef
  have hub : Real.arcsin (Real.sin latr * Real.cos dr) ≤ latr + dr := by
    by_cases hc : latr + dr ≤ Real.pi / 2
    · have hle : Real.sin latr * Real.cos dr ≤ Real.sin (latr + dr) := by
        rw [Real.sin_add]
        nlinarith [mul_nonneg hcos hsin.le]
      calc Real.arcsin (Real.sin latr * Real.cos dr)
          ≤ Real.arcsin (Real.sin (latr + dr)) := Real.monotone_arcsin hle
        _ = latr + dr := Real.arcsin_sin (by linarith) hc
    · calc Real.arcsin (Real.sin latr * Real.cos dr) ≤ Real.pi / 2 :=
          Real.arcsin_le_pi_div_two _
        _ ≤ latr + dr := by linarith [not_le.mp hc]
  have hlb : latr - dr ≤ Real.arcsin (Real.sin latr * Real.cos dr) := by
    by_cases hc : -(Real.pi / 2) ≤ latr - dr
    · have hle : Real.sin (latr - dr) ≤ Real.sin latr * Real.cos dr := by
        rw [Real.sin_sub]
        nlinarith [mul_nonneg hcos hsin.le]
      calc latr - dr = Real.arcsin (Real.sin (latr - dr)) :=
            (Real.arcsin_sin hc (by linarith)).symm
        _ ≤ Real.arcsin (Real.sin latr * Real.cos dr) := Real.monotone_arcsin hle
    · calc latr - dr ≤ -(Real.pi / 2) := by linarith [not_le.mp hc]
        _ ≤ Real.arcsin (Real.sin latr * Real.cos dr) :=
          Real.neg_pi_div_two_le_arcsin _
  unfold degreesOf
  have ht : (0 : ℝ) < 180 / Real.pi := by positivity
  have hid : la = latr * (180 / Real.pi) := by
    rw [hlatr]
    unfold radiansOf
    field_simp
  have hub' : (Real.arcsin (Real.sin latr * Real.cos dr) - latr) * (180 / Real.pi) ≤
      dr * (180 / Real.pi) :=
    mul_le_mul_of_nonneg_right (by linarith) ht.le
  have hlb' : (-dr) * (180 / Real.pi) ≤
      (Real.arcsin (Real.sin latr * Real.cos dr) - latr) * (180 / Real.pi) :=
    mul_le_mul_of_nonneg_right (by linarith) ht.le
  rw [abs_le]
  constructor
  · rw [hid]; nlinarith [hlb']
  · rw [hid]; nlinarith [hub']

/-- The Topeka record, run end to end against a provider success at `(la,
lo)`: the shifted columns receive `apply_offset la lo 10 90` and the
descriptor is `"10.0mi at 90°"` (the bearing comes from the table's `int`
entry `90`, which Python formats without a decimal point). -/
lemma topekaRun_fields (la lo : ℝ) (ty fa : String) (hla : la ≠ 0) (hlo : lo ≠ 0) :
    (runRecord topekaRow (GeoOutcome.success la lo ty fa)).1.latitude_shifted =
      some ((apply_offset la lo 10 90).1)
    ∧ (runRecord topekaRow (GeoOutcome.success la lo ty fa)).1.longitude_shifted =
      some ((apply_offset la lo 10 90).2)
    ∧ (runRecord topekaRow (GeoOutcome.success la lo ty fa)).1.offset_applied =
      "10.0mi at 90°" := by
  have h := geocodeStep_success (preFlagged topekaRow) la lo ty fa
    (by decide) (by decide) hla hlo
  have hp : parse_directional_offset
      (pyStrip (textOf (preFlagged topekaRow).prec_location)) =
      some ({ mant := 10, exp := 0, isInt := false },
            { mant := 90, exp := 0, isInt := true }) := by decide
  have hv10 : PyNum.value { mant := 10, exp := 0, isInt := false } = 10 := by
    norm_num [PyNum.value]
  have hv90 : PyNum.value { mant := 90, exp := 0, isInt := true } = 90 := by
    norm_num [PyNum.value]
  have hoff := successPath_offset_fields (preFlagged topekaRow)
    (joinSep ", " (addressParts (preFlagged topekaRow))) la lo ty fa _ _ hp
    (by rw [hv10]; norm_num) (by rw [hv90]; norm_num) (by decide)
  rw [hv10, hv90] at hoff
  have hstr : pyFloatStr { mant := 10, exp := 0, isInt := false } ++ "mi at " ++
      pyNumStr { mant := 90, exp := 0, isInt := true } ++ "°" = "10.0mi at 90°" := by
    decide
  rw [hstr] at hoff
  refine ⟨?_, ?_, ?_⟩ <;> (unfold runRecord; rw [h])
  · exact hoff.1
  · exact hoff.2.1
  · exact hoff.2.2

/-- Claim C4 (amended): the Topeka record, with a provider returning the
base coordinates, yields `offset_applied = "10.0mi at 90°"` (not
`"10.0mi at 90.0°"`: the table's bearing `90` is a Python `int`), a
`longitude_shifted` strictly greater than the base longitude, and a
`latitude_shifted` within the angular distance travelled
(`10/3959 · 180/π < 0.15°`) of the base latitude. -/
theorem topeka_end_to_end (la lo : ℝ) (ty fa : String)
    (h1 : la ≠ 0) (h2 : lo ≠ 0) (h3 : -90 < la) (h4 : la < 90) :
    (runRecord topekaRow (GeoOutcome.success la lo ty fa)).1.offset_applied =
      "10.0mi at 90°"
    ∧ (∃ lash losh : ℝ,
        (runRecord topekaRow (GeoOutcome.success la lo ty fa)).1.latitude_shifted =
          some lash
        ∧ (runRecord topekaRow (GeoOutcome.success la lo ty fa)).1.longitude_shifted =
          some losh
        ∧ lo < losh
        ∧ |lash - la| ≤ 10 / 3959 * (180 / Real.pi)) := by
  obtain ⟨hsh1, hsh2, hoffs⟩ := topekaRun_fields la lo ty fa h1 h2
  exact ⟨hoffs, (apply_offset la lo 10 90).1, (apply_offset la lo 10 90).2,
    hsh1, hsh2, apply_offset_east_10 la lo h3 h4,
    apply_offset_lat_bound_10_90 la lo h3 h4⟩

/-- Counterexample to C4 as stated: the descriptor is `"10.0mi at 90°"`,
not `"10.0mi at 90.0°"` — the bearing table's entry for E is the `int`
`90`, which the f-string formats without a decimal point. -/
theorem topeka_end_to_end_counterexample :
    (runRecord topekaRow (GeoOutcome.success 39.0473 (-95.6752) "APPROXIMATE"
      "Topeka, KS, USA")).1.offset_applied ≠ "10.0mi at 90.0°" := by
  have h := (topekaRun_fields 39.0473 (-95.6752) "APPROXIMATE" "Topeka, KS, USA"
    (by norm_num) (by norm_num)).2.2
  rw [h]
  decide

/-- Witness for C4 at Topeka's coordinates. -/
theorem topeka_end_to_end_witness :
    ((39.0473 : ℝ) ≠ 0 ∧ (-95.6752 : ℝ) ≠ 0
      ∧ -90 < (39.0473 : ℝ) ∧ (39.0473 : ℝ) < 90)
    ∧ ((runRecord topekaRow (GeoOutcome.success 39.0473 (-95.6752) "APPROXIMATE"
          "Topeka, KS, USA")).1.offset_applied = "10.0mi at 90°"
      ∧ (∃ lash losh : ℝ,
          (runRecord topekaRow (GeoOutcome.success 39.0473 (-95.6752) "APPROXIMATE"
            "Topeka, KS, USA")).1.latitude_shifted = some lash
          ∧ (runRecord topekaRow (GeoOutcome.success 39.0473 (-95.6752) "APPROXIMATE"
              "Topeka, KS, USA")).1.longitude_shifted = some losh
          ∧ (-95.6752 : ℝ) < losh
          ∧ |lash - (39.0473 : ℝ)| ≤ 10 / 3959 * (180 / Real.pi))) :=
  ⟨⟨by norm_num, by norm_num, by norm_num, by norm_num⟩,
    topeka_end_to_end 39.0473 (-95.6752) "APPROXIMATE" "Topeka, KS, USA"
      (by norm_num) (by norm_num) (by norm_num) (by norm_num)⟩
